import Mathlib

/-!
Verification of the AIDE entry module (`src/aide.c`).

This file gives a shallow embedding of the decision logic of `aide.c`:
the command-line option loop (`read_param`), the default settings
(`setdefaults_before_config`, `setdefaults_after_config`), the SIGBUS
one-shot recovery in `sig_handler`, the crypto-library version gate
(`init_crypto_lib`), and the post-configuration part of `main` — the
sanity checks on the configured database URLs, the `sizeg` attribute
fix-up, and the dispatch into the dry-run / normal pipelines — recorded
as a trace of the database/filesystem I/O actions the run performs
together with the process exit code.

External collaborators that are not part of `src/` (the database layer,
the disk walker, the report layer, `check_rxtree`, `parse_config`) are
represented by boolean/integer oracles describing their outcome; the
control flow around them is translated from `aide.c` line by line.
-/

namespace Aide

/-- Modelled from the spec: `errorcodes.h` is not under `src/`; the spec's
process exit contract asks for fixed, distinct codes per failure class
(invalid argument / configuration line, I/O error, crypto version
mismatch).  The values follow the conventions of the missing header;
only their fixedness and distinctness matter to the claims. -/
def RETOK : Nat := 0

/-- Exit code for invalid command-line arguments and invalid database
configuration combinations (see `RETOK` for modelling provenance). -/
def INVALID_ARGUMENT_ERROR : Nat := 15

/-- Exit code for configuration-line failures (see `RETOK`). -/
def INVALID_CONFIGURELINE_ERROR : Nat := 17

/-- Exit code for database open/write failures (see `RETOK`). -/
def IO_ERROR : Nat := 18

/-- Exit code for a too-old crypto library (see `RETOK`). -/
def VERSION_MISMATCH_ERROR : Nat := 19

/-- The C standard failure status used by `exit(EXIT_FAILURE)`. -/
def EXIT_FAILURE : Nat := 1

/-- Modelled from the spec: `db_config.h` is not under `src/`; the action
field is a bit-flag set over INIT, COMPARE, DIFF, DRY_RUN (`aide.c` tests
it with `&` against unions of these), so the four flags are distinct bits. -/
def DO_INIT : Nat := 1

/-- COMPARE action bit (see `DO_INIT` for modelling provenance). -/
def DO_COMPARE : Nat := 2

/-- DIFF action bit (see `DO_INIT`). -/
def DO_DIFF : Nat := 4

/-- DRY_RUN action bit (see `DO_INIT`). -/
def DO_DRY_RUN : Nat := 8

/-- Modelled from the spec: `attributes.h` is not under `src/`.  The
attribute catalog is a fixed table in which every attribute owns a
unique bit of a wide flag type; this enumerates the attributes `aide.c`
mentions. -/
inductive ATTRIBUTE where
  | attr_filename
  | attr_attr
  | attr_perm
  | attr_inode
  | attr_ftype
  | attr_linkcount
  | attr_uid
  | attr_gid
  | attr_size
  | attr_sizeg
  | attr_linkname
  | attr_mtime
  | attr_ctime
  | attr_md5
  | attr_acl
  | attr_selinux
  | attr_xattrs
  | attr_e2fsattrs
  | attr_capabilities
deriving DecidableEq

/-- The bit position owned by an attribute (see `ATTRIBUTE`). -/
def attrIndex : ATTRIBUTE → Nat
  | .attr_filename => 0
  | .attr_attr => 1
  | .attr_perm => 2
  | .attr_inode => 3
  | .attr_ftype => 4
  | .attr_linkcount => 5
  | .attr_uid => 6
  | .attr_gid => 7
  | .attr_size => 8
  | .attr_sizeg => 9
  | .attr_linkname => 10
  | .attr_mtime => 11
  | .attr_ctime => 12
  | .attr_md5 => 13
  | .attr_acl => 14
  | .attr_selinux => 15
  | .attr_xattrs => 16
  | .attr_e2fsattrs => 17
  | .attr_capabilities => 18

/-- `ATTR(x)`: the single-bit mask of attribute `x`. -/
def ATTR (a : ATTRIBUTE) : Nat := 2 ^ attrIndex a

/-- The `config_name` column of the attribute table, used by the
start-up loop that defines one group per attribute (see `ATTRIBUTE`
for modelling provenance; names are the configuration names of the
missing table, `none` standing for a NULL `config_name`). -/
def configName : ATTRIBUTE → Option String
  | .attr_filename => none
  | .attr_attr => none
  | .attr_perm => some "perm"
  | .attr_inode => some "inode"
  | .attr_ftype => some "ftype"
  | .attr_linkcount => some "lcount"
  | .attr_uid => some "uid"
  | .attr_gid => some "gid"
  | .attr_size => some "size"
  | .attr_sizeg => some "sizeg"
  | .attr_linkname => some "lname"
  | .attr_mtime => some "mtime"
  | .attr_ctime => some "ctime"
  | .attr_md5 => some "md5"
  | .attr_acl => some "acl"
  | .attr_selinux => some "selinux"
  | .attr_xattrs => some "xattrs"
  | .attr_e2fsattrs => some "e2fsattrs"
  | .attr_capabilities => some "caps"

/-- All catalog attributes, in table order. -/
def allAttrs : List ATTRIBUTE :=
  [.attr_filename, .attr_attr, .attr_perm, .attr_inode, .attr_ftype,
   .attr_linkcount, .attr_uid, .attr_gid, .attr_size, .attr_sizeg,
   .attr_linkname, .attr_mtime, .attr_ctime, .attr_md5, .attr_acl,
   .attr_selinux, .attr_xattrs, .attr_e2fsattrs, .attr_capabilities]

/-- Modelled from the spec: `do_groupdef` (`commandconf.c`) is not under
`src/`; per the spec's GroupResolver, `define(name, mask)` inserts or
overwrites the binding of `name` in the process-wide symbol table. -/
def do_groupdef (syms : List (String × Nat)) (name : String) (value : Nat) :
    List (String × Nat) :=
  match syms with
  | [] => [(name, value)]
  | (n, v) :: rest =>
      if n == name then (n, value) :: rest
      else (n, v) :: do_groupdef rest name value

/-- Modelled from the spec: `get_groupval` (`commandconf.c`) is not under
`src/`; per the spec's GroupResolver, `resolve(name)` looks the name up in
the symbol table, failing when it is absent. -/
def get_groupval (syms : List (String × Nat)) (name : String) : Option Nat :=
  match syms with
  | [] => none
  | (n, v) :: rest => if n == name then some v else get_groupval rest name

/-- Compile-time/runtime environment of `setdefaults_before_config`:
which optional features are built in, whether libgcrypt runs in FIPS
mode, and the result of `get_hashes(false)` (the mask of all available
hash attributes, computed in the missing `hashsum.c`). -/
structure Platform where
  with_acl : Bool
  with_selinux : Bool
  with_xattr : Bool
  with_e2fsattrs : Bool
  with_capabilities : Bool
  with_mhash : Bool
  with_gcrypt : Bool
  gcry_fips : Bool
  available_hashes : Nat

/-- The mask `X` accumulated from the platform-extra attributes
(`aide.c` lines 494-509). -/
def groupX (p : Platform) : Nat :=
  (if p.with_acl then ATTR .attr_acl else 0) |||
  (if p.with_selinux then ATTR .attr_selinux else 0) |||
  (if p.with_xattr then ATTR .attr_xattrs else 0) |||
  (if p.with_e2fsattrs then ATTR .attr_e2fsattrs else 0) |||
  (if p.with_capabilities then ATTR .attr_capabilities else 0)

/-- `common_attrs` (`aide.c` line 511). -/
def common_attrs : Nat :=
  ATTR .attr_perm ||| ATTR .attr_ftype ||| ATTR .attr_inode |||
  ATTR .attr_linkcount ||| ATTR .attr_uid ||| ATTR .attr_gid

/-- `GROUP_R_HASHES` (`aide.c` lines 513-525): zero, overwritten with the
md5 bit when mhash is built in, and again when gcrypt is built in and not
in FIPS mode (the FIPS branch only logs). -/
def GROUP_R_HASHES (p : Platform) : Nat :=
  let g : Nat := 0
  let g := if p.with_mhash then ATTR .attr_md5 else g
  let g := if p.with_gcrypt && !p.gcry_fips then ATTR .attr_md5 else g
  g

/-- Whether an md5 content hash is compiled in and usable, i.e. whether
`GROUP_R_HASHES` ends up nonzero. -/
def md5_available (p : Platform) : Bool :=
  p.with_mhash || (p.with_gcrypt && !p.gcry_fips)

/-- The group symbol table built by `setdefaults_before_config`
(`aide.c` lines 486-533): one group per named catalog attribute, then the
predefined compound groups R, L, >, H, X, E. -/
def default_group_syms (p : Platform) : List (String × Nat) :=
  let syms := allAttrs.foldl
    (fun s a =>
      match configName a with
      | some n => do_groupdef s n (ATTR a)
      | none => s) []
  let syms := do_groupdef syms "R"
    (common_attrs ||| ATTR .attr_size ||| ATTR .attr_linkname |||
     ATTR .attr_mtime ||| ATTR .attr_ctime ||| GROUP_R_HASHES p ||| groupX p)
  let syms := do_groupdef syms "L" (common_attrs ||| ATTR .attr_linkname ||| groupX p)
  let syms := do_groupdef syms ">"
    (common_attrs ||| ATTR .attr_sizeg ||| ATTR .attr_linkname ||| groupX p)
  let syms := do_groupdef syms "H" p.available_hashes
  let syms := do_groupdef syms "X" (groupX p)
  do_groupdef syms "E" 0

/-- The initial value of the one-shot SIGBUS recovery flag: `conf->catch_mmap=0`
(`aide.c` line 468). -/
def initial_catch_mmap : Nat := 0

/-- Result of running the signal handler: the run continues with an
updated `catch_mmap` flag, or the process exits with the given status. -/
inductive SigResult where
  | continues (catch_mmap : Nat)
  | exits (status : Nat)
deriving DecidableEq

/-- The SIGBUS arm of `sig_handler` (`aide.c` lines 125-134): with the
armed flag set it logs, clears the flag and returns; otherwise it exits
with `EXIT_FAILURE`. -/
def sigbus_handler (catch_mmap : Nat) : SigResult :=
  if catch_mmap = 1 then .continues 0 else .exits EXIT_FAILURE

/-- Outcome of `n` successive SIGBUS faults starting from a given
`catch_mmap` flag value: `none` when the run survives them all, `some s`
when the handler terminates the process with status `s`. -/
def runFaults (catch_mmap : Nat) : Nat → Option Nat
  | 0 => none
  | n + 1 =>
      match sigbus_handler catch_mmap with
      | .continues c => runFaults c n
      | .exits s => some s

/-- `init_crypto_lib` (`aide.c` lines 110-120): with gcrypt built in and
`gcry_check_version` rejecting the required version, the process exits
with `VERSION_MISMATCH_ERROR`; otherwise it returns. `some s` models
`exit(s)`, `none` a normal return. -/
def init_crypto_lib (with_gcrypt : Bool) (version_ok : Bool) : Option Nat :=
  if with_gcrypt && !version_ok then some VERSION_MISMATCH_ERROR else none

/-- The `parse_config` failure gate in `main` (`aide.c` lines 600-603):
a `RETFAIL` result exits with `INVALID_CONFIGURELINE_ERROR`. -/
def parse_config_gate (parse_ok : Bool) : Option Nat :=
  if parse_ok then none else some INVALID_CONFIGURELINE_ERROR

/-- One parsed command-line option, as dispatched by the `switch` in
`read_param` (`aide.c` lines 250-361).  Options whose argument is
validated carry the validation outcome (`limit`: the regex compiles;
`logLevel`: the level string is known; `pathCheck`: the argument is a
well-formed `file_type:absolute_path`). -/
inductive Opt where
  | help
  | version
  | verbose
  | report
  | config (file : String)
  | before (line : String)
  | after (line : String)
  | limit (regex_ok : Bool)
  | logLevel (level_ok : Bool)
  | init
  | dryInit
  | check
  | update
  | compare
  | configCheck
  | pathCheck (arg_ok : Bool)
  | unknown
deriving DecidableEq

/-- Whether an option is one of the seven primary commands (the six
`ACTION_CASE`s plus `--path-check`, which also sets `conf->action`). -/
def isCmd : Opt → Bool
  | .init | .dryInit | .check | .update | .compare | .configCheck | .pathCheck _ => true
  | _ => false

/-- Whether an option is `--help` or `--version`, which print and exit
with status 0 as soon as they are dispatched. -/
def isHelpOrVersion : Opt → Bool
  | .help | .version => true
  | _ => false

/-- Number of primary commands on a command line. -/
def countCmd (opts : List Opt) : Nat := (opts.filter isCmd).length

/-- The option loop of `read_param` (`aide.c` lines 250-361), threading
`conf->action`.  `Except.error s` models the process exiting with status
`s` during parsing (`usage(0)`/`print_version` for help and version, the
`INVALID_ARGUMENT` macro elsewhere); `Except.ok a` models the loop
finishing with `conf->action = a`.  Each `ACTION_CASE` assigns the action
only when it is still 0 and otherwise exits with
`INVALID_ARGUMENT_ERROR`; `--path-check` does the same check before
validating its argument. -/
def read_param_loop (action : Nat) : List Opt → Except Nat Nat
  | [] => .ok action
  | o :: rest =>
      match o with
      | .help => .error 0
      | .version => .error 0
      | .verbose => .error INVALID_ARGUMENT_ERROR
      | .report => .error INVALID_ARGUMENT_ERROR
      | .unknown => .error INVALID_ARGUMENT_ERROR
      | .config _ => read_param_loop action rest
      | .before _ => read_param_loop action rest
      | .after _ => read_param_loop action rest
      | .limit ok => if ok then read_param_loop action rest else .error INVALID_ARGUMENT_ERROR
      | .logLevel ok => if ok then read_param_loop action rest else .error INVALID_ARGUMENT_ERROR
      | .init =>
          if action = 0 then read_param_loop DO_INIT rest else .error INVALID_ARGUMENT_ERROR
      | .dryInit =>
          if action = 0 then read_param_loop (DO_INIT ||| DO_DRY_RUN) rest
          else .error INVALID_ARGUMENT_ERROR
      | .check =>
          if action = 0 then read_param_loop DO_COMPARE rest else .error INVALID_ARGUMENT_ERROR
      | .update =>
          if action = 0 then read_param_loop (DO_INIT ||| DO_COMPARE) rest
          else .error INVALID_ARGUMENT_ERROR
      | .compare =>
          if action = 0 then read_param_loop DO_DIFF rest else .error INVALID_ARGUMENT_ERROR
      | .configCheck =>
          if action = 0 then read_param_loop DO_DRY_RUN rest else .error INVALID_ARGUMENT_ERROR
      | .pathCheck ok =>
          if action = 0 then
            if ok then read_param_loop DO_DRY_RUN rest else .error INVALID_ARGUMENT_ERROR
          else .error INVALID_ARGUMENT_ERROR

/-- `read_param` starting from the initial `conf->action = 0`. -/
def read_param (opts : List Opt) : Except Nat Nat := read_param_loop 0 opts

/-- The three logical databases of the configuration. -/
inductive DbKind where
  | dbIn
  | dbOut
  | dbNew
deriving DecidableEq

/-- One database/filesystem I/O action of the post-configuration part of
`main` (`aide.c` lines 615-728).  `openWrite`/`writeSpec`/`writeTree`
carry the `db_out_attrs` mask in force when the database is written,
`walk` records a `populate_tree` call with its dry-run flag. -/
inductive Effect where
  | initReports
  | openRootDir
  | openWrite (k : DbKind)
  | writeSpec (attrs : Nat)
  | diskInit
  | openRead (k : DbKind)
  | walk (dry : Bool)
  | writeTree (attrs : Nat)
  | closeDb
  | genReport
deriving DecidableEq

/-- The configuration state reaching the post-configuration part of
`main`: the action flag set, the `--path-check` request, the three
database URLs, the attributes to store, and the root prefix length. -/
structure DbConfig where
  action : Nat
  check_path : Option String
  database_in_url : Option String
  database_out_url : Option String
  database_new_url : Option String
  db_out_attrs : Nat
  root_prefix_length : Nat

/-- Oracles for the external collaborators `main` calls after the sanity
checks: the `check_rxtree` result for `--path-check` (negative: outside
the limit, zero: no match, positive: match), success of `db_disk_init`,
`db_init` per database, `db_writespec`, `init_report_urls`, the
`opendir` probe of the root prefix, and the exit code computed by
`gen_report`. -/
structure Ext where
  check_rxtree : Int
  diskInitOk : Bool
  dbInitOk : DbKind → Bool
  writeSpecOk : Bool
  reportUrlsOk : Bool
  rootOpenOk : Bool
  genReportCode : Nat

/-- The guard of `aide.c` line 635: both URLs configured and
`cmpurl(in, out) == RETOK` (`cmpurl` compares the resolved locations;
URLs are modelled by their resolved location string). -/
def cmpurl_ok : Option String → Option String → Bool
  | some a, some b => a == b
  | _, _ => false

/-- The `sizeg` fix-up of `aide.c` lines 654-657: if the growth-size
attribute is among the attributes to store, the plain size attribute is
added. -/
def db_out_attrs_fixup (attrs : Nat) : Nat :=
  if attrs &&& ATTR .attr_sizeg ≠ 0 then attrs ||| ATTR .attr_size else attrs

/-- Tail of the normal pipeline (`aide.c` lines 711-727): `populate_tree`,
the INIT-only `write_tree`, `db_close`, `gen_report`, exiting with the
report's code. -/
def stageWalkWrite (c : DbConfig) (e : Ext) (t : List Effect) : List Effect × Nat :=
  let t := t ++ [Effect.walk false]
  let t := if c.action &&& DO_INIT ≠ 0 then t ++ [Effect.writeTree c.db_out_attrs] else t
  (t ++ [Effect.closeDb, Effect.genReport], e.genReportCode)

/-- `aide.c` lines 706-709: for DIFF, open the comparison-new database. -/
def stageOpenNew (c : DbConfig) (e : Ext) (t : List Effect) : List Effect × Nat :=
  if c.action &&& DO_DIFF ≠ 0 then
    let t := t ++ [Effect.openRead .dbNew]
    if e.dbInitOk .dbNew then stageWalkWrite c e t else (t, IO_ERROR)
  else stageWalkWrite c e t

/-- `aide.c` lines 702-705: for COMPARE or DIFF, open the input database. -/
def stageOpenIn (c : DbConfig) (e : Ext) (t : List Effect) : List Effect × Nat :=
  if c.action &&& (DO_COMPARE ||| DO_DIFF) ≠ 0 then
    let t := t ++ [Effect.openRead .dbIn]
    if e.dbInitOk .dbIn then stageOpenNew c e t else (t, IO_ERROR)
  else stageOpenNew c e t

/-- `aide.c` lines 698-701: for INIT or COMPARE, initialise the disk
walker. -/
def stageDiskInit (c : DbConfig) (e : Ext) (t : List Effect) : List Effect × Nat :=
  if c.action &&& (DO_INIT ||| DO_COMPARE) ≠ 0 then
    let t := t ++ [Effect.diskInit]
    if e.diskInitOk then stageOpenIn c e t else (t, IO_ERROR)
  else stageOpenIn c e t

/-- `aide.c` lines 683-697: for INIT, open the output database for
writing and write its spec header; either failure exits with
`IO_ERROR`. -/
def stageInitOpen (c : DbConfig) (e : Ext) (t : List Effect) : List Effect × Nat :=
  if c.action &&& DO_INIT ≠ 0 then
    let t := t ++ [Effect.openWrite .dbOut]
    if e.dbInitOk .dbOut then
      let t := t ++ [Effect.writeSpec c.db_out_attrs]
      if e.writeSpecOk then stageDiskInit c e t else (t, IO_ERROR)
    else (t, IO_ERROR)
  else stageDiskInit c e t

/-- `aide.c` lines 674-682: for INIT or COMPARE with a nonempty root
prefix, probe it with `opendir`; failure exits with
`INVALID_CONFIGURELINE_ERROR`. -/
def stageRootCheck (c : DbConfig) (e : Ext) (t : List Effect) : List Effect × Nat :=
  if c.action &&& (DO_INIT ||| DO_COMPARE) ≠ 0 ∧ 0 < c.root_prefix_length then
    let t := t ++ [Effect.openRootDir]
    if e.rootOpenOk then stageInitOpen c e t else (t, INVALID_CONFIGURELINE_ERROR)
  else stageInitOpen c e t

/-- The action dispatch of `main` after the sanity checks (`aide.c`
lines 659-729): the dry-init branch (disk walker, dry `populate_tree`,
`exit(0)`), the normal pipeline guarded by `!(action & DO_DRY_RUN)`
(beginning with `init_report_urls`), or the plain `return RETOK` for a
remaining dry-run action (config check). -/
def mainRunPhase (c : DbConfig) (e : Ext) : List Effect × Nat :=
  if c.action &&& DO_INIT ≠ 0 ∧ c.action &&& DO_DRY_RUN ≠ 0 then
    if e.diskInitOk then ([Effect.diskInit, Effect.walk true], 0)
    else ([Effect.diskInit], IO_ERROR)
  else if c.action &&& DO_DRY_RUN = 0 then
    if e.reportUrlsOk then stageRootCheck c e [Effect.initReports]
    else ([Effect.initReports], INVALID_CONFIGURELINE_ERROR)
  else ([], RETOK)

/-- The post-configuration part of `main` (`aide.c` lines 615-729): the
`--path-check` early exit, the database-URL sanity checks (each exiting
with `INVALID_ARGUMENT_ERROR` before any effect), the `sizeg` fix-up of
`db_out_attrs`, then the action dispatch.  The result is the trace of
database/filesystem I/O effects performed and the process exit status. -/
def mainAfterConfig (c : DbConfig) (e : Ext) : List Effect × Nat :=
  match c.check_path with
  | some _ =>
      if e.check_rxtree < 0 then ([], 2)
      else if e.check_rxtree ≠ 0 then ([], 0)
      else ([], 1)
  | none =>
      if c.action &&& (DO_DIFF ||| DO_COMPARE) ≠ 0 ∧ c.database_in_url = none then
        ([], INVALID_ARGUMENT_ERROR)
      else if c.action &&& DO_INIT ≠ 0 ∧ c.database_out_url = none then
        ([], INVALID_ARGUMENT_ERROR)
      else if cmpurl_ok c.database_in_url c.database_out_url = true ∧
          c.action &&& DO_INIT ≠ 0 ∧ c.action &&& DO_COMPARE ≠ 0 then
        ([], INVALID_ARGUMENT_ERROR)
      else if cmpurl_ok c.database_in_url c.database_out_url = true ∧
          c.action &&& DO_DIFF ≠ 0 then
        ([], INVALID_ARGUMENT_ERROR)
      else if c.action &&& DO_DIFF ≠ 0 ∧
          (c.database_new_url = none ∨ c.database_in_url = none) then
        ([], INVALID_ARGUMENT_ERROR)
      else
        mainRunPhase { c with db_out_attrs := db_out_attrs_fixup c.db_out_attrs } e

/-- `setdefaults_after_config` (`aide.c` lines 536-566) restricted to the
fields of `DbConfig`: fill in the compiled-in default database URLs when
unset, and default the action to `DO_COMPARE` when no command was given.
The source's successive `if` statements write to distinct fields, so they
are rendered as one simultaneous record update (the root prefix, report
URL and log level defaults touch no `DbConfig` field). -/
def setdefaults_after_config (default_db default_db_out : Option String)
    (c : DbConfig) : DbConfig :=
  { c with
    database_in_url :=
      match default_db, c.database_in_url with
      | some d, none => some d
      | _, u => u,
    database_out_url :=
      match default_db_out, c.database_out_url with
      | some d, none => some d
      | _, u => u,
    action := if c.action = 0 then DO_COMPARE else c.action }

/-- Concrete external oracle with every collaborator succeeding. -/
def ext_all_ok : Ext :=
  { check_rxtree := 0, diskInitOk := true, dbInitOk := fun _ => true,
    writeSpecOk := true, reportUrlsOk := true, rootOpenOk := true,
    genReportCode := 0 }

lemma and_mask_mono {a m s : Nat} (h : m &&& s = s) (hne : a &&& s ≠ 0) :
    a &&& m ≠ 0 := by
  intro h0
  apply hne
  calc a &&& s = a &&& (m &&& s) := by rw [h]
    _ = (a &&& m) &&& s := (Nat.and_assoc a m s).symm
    _ = 0 &&& s := by rw [h0]
    _ = 0 := Nat.zero_and s

lemma or_attr_and_self (x : Nat) (a : ATTRIBUTE) : (x ||| ATTR a) &&& ATTR a ≠ 0 := by
  show (x ||| 2 ^ attrIndex a) &&& 2 ^ attrIndex a ≠ 0
  rw [Nat.and_two_pow]
  simp [Nat.testBit_or, Nat.testBit_two_pow_self]

lemma db_out_attrs_fixup_sizeg (x : Nat)
    (h : db_out_attrs_fixup x &&& ATTR .attr_sizeg ≠ 0) :
    db_out_attrs_fixup x &&& ATTR .attr_size ≠ 0 := by
  unfold db_out_attrs_fixup at h ⊢
  by_cases hx : x &&& ATTR ATTRIBUTE.attr_sizeg ≠ 0
  · rw [if_pos hx]
    exact or_attr_and_self x .attr_size
  · rw [if_neg hx] at h
    exact absurd h hx

/-- Every database-write effect in a trace carries exactly the mask `v`. -/
def StoredAttrs (v : Nat) (t : List Effect) : Prop :=
  ∀ a : Nat, Effect.writeSpec a ∈ t ∨ Effect.writeTree a ∈ t → a = v

lemma storedAttrs_nil (v : Nat) : StoredAttrs v [] := by
  intro a h
  rcases h with h | h <;> simp at h

lemma storedAttrs_append_nonwrite (v : Nat) (t : List Effect) (x : Effect)
    (hx : ∀ a : Nat, x ≠ Effect.writeSpec a ∧ x ≠ Effect.writeTree a)
    (ht : StoredAttrs v t) : StoredAttrs v (t ++ [x]) := by
  intro a h
  rcases h with h | h <;> rw [List.mem_append] at h <;>
    rcases h with h | h
  · exact ht a (Or.inl h)
  · simp at h
    exact absurd h.symm (hx a).1
  · exact ht a (Or.inr h)
  · simp at h
    exact absurd h.symm (hx a).2

lemma storedAttrs_append_writeSpec (v : Nat) (t : List Effect)
    (ht : StoredAttrs v t) : StoredAttrs v (t ++ [Effect.writeSpec v]) := by
  intro a h
  rcases h with h | h <;> rw [List.mem_append] at h <;>
    rcases h with h | h
  · exact ht a (Or.inl h)
  · simp at h
    exact h
  · exact ht a (Or.inr h)
  · simp at h

lemma storedAttrs_append_writeTree (v : Nat) (t : List Effect)
    (ht : StoredAttrs v t) : StoredAttrs v (t ++ [Effect.writeTree v]) := by
  intro a h
  rcases h with h | h <;> rw [List.mem_append] at h <;>
    rcases h with h | h
  · exact ht a (Or.inl h)
  · simp at h
  · exact ht a (Or.inr h)
  · simp at h
    exact h

lemma stored_stageWalkWrite (c : DbConfig) (e : Ext) (t : List Effect)
    (ht : StoredAttrs c.db_out_attrs t) :
    StoredAttrs c.db_out_attrs (stageWalkWrite c e t).1 := by
  unfold stageWalkWrite
  split
  · have h1 := storedAttrs_append_nonwrite c.db_out_attrs t (Effect.walk false)
      (fun a => ⟨by simp, by simp⟩) ht
    have h2 := storedAttrs_append_writeTree c.db_out_attrs _ h1
    have h3 := storedAttrs_append_nonwrite c.db_out_attrs _ Effect.closeDb
      (fun a => ⟨by simp, by simp⟩) h2
    have h4 := storedAttrs_append_nonwrite c.db_out_attrs _ Effect.genReport
      (fun a => ⟨by simp, by simp⟩) h3
    simpa using h4
  · have h1 := storedAttrs_append_nonwrite c.db_out_attrs t (Effect.walk false)
      (fun a => ⟨by simp, by simp⟩) ht
    have h3 := storedAttrs_append_nonwrite c.db_out_attrs _ Effect.closeDb
      (fun a => ⟨by simp, by simp⟩) h1
    have h4 := storedAttrs_append_nonwrite c.db_out_attrs _ Effect.genReport
      (fun a => ⟨by simp, by simp⟩) h3
    simpa using h4

lemma stored_stageOpenNew (c : DbConfig) (e : Ext) (t : List Effect)
    (ht : StoredAttrs c.db_out_attrs t) :
    StoredAttrs c.db_out_attrs (stageOpenNew c e t).1 := by
  unfold stageOpenNew
  split
  · have hadd := storedAttrs_append_nonwrite c.db_out_attrs t (Effect.openRead .dbNew)
      (fun a => ⟨by simp, by simp⟩) ht
    split
    · exact stored_stageWalkWrite c e _ hadd
    · exact hadd
  · exact stored_stageWalkWrite c e t ht

lemma stored_stageOpenIn (c : DbConfig) (e : Ext) (t : List Effect)
    (ht : StoredAttrs c.db_out_attrs t) :
    StoredAttrs c.db_out_attrs (stageOpenIn c e t).1 := by
  unfold stageOpenIn
  split
  · have hadd := storedAttrs_append_nonwrite c.db_out_attrs t (Effect.openRead .dbIn)
      (fun a => ⟨by simp, by simp⟩) ht
    split
    · exact stored_stageOpenNew c e _ hadd
    · exact hadd
  · exact stored_stageOpenNew c e t ht

lemma stored_stageDiskInit (c : DbConfig) (e : Ext) (t : List Effect)
    (ht : StoredAttrs c.db_out_attrs t) :
    StoredAttrs c.db_out_attrs (stageDiskInit c e t).1 := by
  unfold stageDiskInit
  split
  · have hadd := storedAttrs_append_nonwrite c.db_out_attrs t Effect.diskInit
      (fun a => ⟨by simp, by simp⟩) ht
    split
    · exact stored_stageOpenIn c e _ hadd
    · exact hadd
  · exact stored_stageOpenIn c e t ht

lemma stored_stageInitOpen (c : DbConfig) (e : Ext) (t : List Effect)
    (ht : StoredAttrs c.db_out_attrs t) :
    StoredAttrs c.db_out_attrs (stageInitOpen c e t).1 := by
  unfold stageInitOpen
  split
  · have h1 := storedAttrs_append_nonwrite c.db_out_attrs t (Effect.openWrite .dbOut)
      (fun a => ⟨by simp, by simp⟩) ht
    split
    · have h2 := storedAttrs_append_writeSpec c.db_out_attrs _ h1
      split
      · exact stored_stageDiskInit c e _ h2
      · exact h2
    · exact h1
  · exact stored_stageDiskInit c e t ht

lemma stored_stageRootCheck (c : DbConfig) (e : Ext) (t : List Effect)
    (ht : StoredAttrs c.db_out_attrs t) :
    StoredAttrs c.db_out_attrs (stageRootCheck c e t).1 := by
  unfold stageRootCheck
  split
  · have hadd := storedAttrs_append_nonwrite c.db_out_attrs t Effect.openRootDir
      (fun a => ⟨by simp, by simp⟩) ht
    split
    · exact stored_stageInitOpen c e _ hadd
    · exact hadd
  · exact stored_stageInitOpen c e t ht

lemma stored_mainRunPhase (c : DbConfig) (e : Ext) :
    StoredAttrs c.db_out_attrs (mainRunPhase c e).1 := by
  unfold mainRunPhase
  split
  · split
    · intro a h
      rcases h with h | h <;> simp at h
    · intro a h
      rcases h with h | h <;> simp at h
  · split
    · split
      · refine stored_stageRootCheck c e [Effect.initReports] ?_
        intro a h
        rcases h with h | h <;> simp at h
      · intro a h
        rcases h with h | h <;> simp at h
    · exact storedAttrs_nil _

lemma stored_mainAfterConfig (c : DbConfig) (e : Ext) :
    StoredAttrs (db_out_attrs_fixup c.db_out_attrs) (mainAfterConfig c e).1 := by
  unfold mainAfterConfig
  split
  · split
    · exact storedAttrs_nil _
    · split
      · exact storedAttrs_nil _
      · exact storedAttrs_nil _
  · split
    · exact storedAttrs_nil _
    · split
      · exact storedAttrs_nil _
      · split
        · exact storedAttrs_nil _
        · split
          · exact storedAttrs_nil _
          · split
            · exact storedAttrs_nil _
            · exact stored_mainRunPhase
                { c with db_out_attrs := db_out_attrs_fixup c.db_out_attrs } e

lemma countCmd_cons (o : Opt) (rest : List Opt) :
    countCmd (o :: rest) = (if isCmd o then 1 else 0) + countCmd rest := by
  unfold countCmd
  rw [List.filter_cons]
  split <;> simp [Nat.add_comm]

lemma read_param_loop_two_commands (opts : List Opt) :
    ∀ action : Nat,
      (∀ o ∈ opts, isHelpOrVersion o = false) →
      ((action ≠ 0 ∧ 1 ≤ countCmd opts) ∨ 2 ≤ countCmd opts) →
      read_param_loop action opts = Except.error INVALID_ARGUMENT_ERROR := by
  induction opts with
  | nil =>
      intro action _ h
      have hc : countCmd ([] : List Opt) = 0 := rfl
      rcases h with ⟨_, h1⟩ | h2 <;> omega
  | cons o rest ih =>
      intro action hhv h
      have hrest : ∀ x ∈ rest, isHelpOrVersion x = false :=
        fun x hx => hhv x (List.mem_cons_of_mem o hx)
      have hcnt := countCmd_cons o rest
      cases o with
      | help =>
          have := hhv .help (List.mem_cons_self _ _)
          simp [isHelpOrVersion] at this
      | version =>
          have := hhv .version (List.mem_cons_self _ _)
          simp [isHelpOrVersion] at this
      | verbose => rfl
      | report => rfl
      | unknown => rfl
      | config f =>
          show read_param_loop action rest = _
          simp [isCmd] at hcnt
          exact ih action hrest (by omega)
      | before l =>
          show read_param_loop action rest = _
          simp [isCmd] at hcnt
          exact ih action hrest (by omega)
      | after l =>
          show read_param_loop action rest = _
          simp [isCmd] at hcnt
          exact ih action hrest (by omega)
      | limit ok =>
          cases ok with
          | false => rfl
          | true =>
              show read_param_loop action rest = _
              simp [isCmd] at hcnt
              exact ih action hrest (by omega)
      | logLevel ok =>
          cases ok with
          | false => rfl
          | true =>
              show read_param_loop action rest = _
              simp [isCmd] at hcnt
              exact ih action hrest (by omega)
      | init =>
          simp [isCmd] at hcnt
          by_cases ha : action = 0
          · show (if action = 0 then read_param_loop DO_INIT rest else _) = _
            rw [if_pos ha]
            exact ih DO_INIT hrest (Or.inl ⟨by decide, by omega⟩)
          · show (if action = 0 then read_param_loop DO_INIT rest else _) = _
            rw [if_neg ha]
      | dryInit =>
          simp [isCmd] at hcnt
          by_cases ha : action = 0
          · show (if action = 0 then read_param_loop (DO_INIT ||| DO_DRY_RUN) rest else _) = _
            rw [if_pos ha]
            exact ih (DO_INIT ||| DO_DRY_RUN) hrest (Or.inl ⟨by decide, by omega⟩)
          · show (if action = 0 then read_param_loop (DO_INIT ||| DO_DRY_RUN) rest else _) = _
            rw [if_neg ha]
      | check =>
          simp [isCmd] at hcnt
          by_cases ha : action = 0
          · show (if action = 0 then read_param_loop DO_COMPARE rest else _) = _
            rw [if_pos ha]
            exact ih DO_COMPARE hrest (Or.inl ⟨by decide, by omega⟩)
          · show (if action = 0 then read_param_loop DO_COMPARE rest else _) = _
            rw [if_neg ha]
      | update =>
          simp [isCmd] at hcnt
          by_cases ha : action = 0
          · show (if action = 0 then read_param_loop (DO_INIT ||| DO_COMPARE) rest else _) = _
            rw [if_pos ha]
            exact ih (DO_INIT ||| DO_COMPARE) hrest (Or.inl ⟨by decide, by omega⟩)
          · show (if action = 0 then read_param_loop (DO_INIT ||| DO_COMPARE) rest else _) = _
            rw [if_neg ha]
      | compare =>
          simp [isCmd] at hcnt
          by_cases ha : action = 0
          · show (if action = 0 then read_param_loop DO_DIFF rest else _) = _
            rw [if_pos ha]
            exact ih DO_DIFF hrest (Or.inl ⟨by decide, by omega⟩)
          · show (if action = 0 then read_param_loop DO_DIFF rest else _) = _
            rw [if_neg ha]
      | configCheck =>
          simp [isCmd] at hcnt
          by_cases ha : action = 0
          · show (if action = 0 then read_param_loop DO_DRY_RUN rest else _) = _
            rw [if_pos ha]
            exact ih DO_DRY_RUN hrest (Or.inl ⟨by decide, by omega⟩)
          · show (if action = 0 then read_param_loop DO_DRY_RUN rest else _) = _
            rw [if_neg ha]
      | pathCheck ok =>
          simp [isCmd] at hcnt
          by_cases ha : action = 0
          · cases ok with
            | false =>
                show (if action = 0 then
                    (if false = true then read_param_loop DO_DRY_RUN rest else
                      Except.error INVALID_ARGUMENT_ERROR)
                  else _) = _
                rw [if_pos ha]
                rfl
            | true =>
                show (if action = 0 then
                    (if true = true then read_param_loop DO_DRY_RUN rest else _)
                  else _) = _
                rw [if_pos ha, if_pos rfl]
                exact ih DO_DRY_RUN hrest (Or.inl ⟨by decide, by omega⟩)
          · show (if action = 0 then _ else _) = _
            rw [if_neg ha]

lemma GROUP_R_HASHES_eq (p : Platform) :
    GROUP_R_HASHES p = (if md5_available p then ATTR .attr_md5 else 0) := by
  unfold GROUP_R_HASHES md5_available
  cases hm : p.with_mhash <;> cases hg : p.with_gcrypt && !p.gcry_fips <;>
    simp [hm, hg]

/-- A COMPARE run with no input database configured. -/
def compare_no_db_config : DbConfig :=
  { action := DO_COMPARE, check_path := none, database_in_url := none,
    database_out_url := none, database_new_url := none, db_out_attrs := 0,
    root_prefix_length := 0 }

/-- C1: for every action including COMPARE or DIFF without a configured
input database URL, for every action including INIT without a configured
output database URL, and for DIFF without both input databases
configured, `main` exits with the invalid-argument error and an empty
I/O trace, i.e. before any database or filesystem I/O.  The
`check_path = none` hypothesis holds on all such runs: `--path-check` is
the only place that sets `check_path`, and it forces the action
`DO_DRY_RUN`, which contains none of the INIT/COMPARE/DIFF bits. -/
theorem precondition_violations_exit_before_io (c : DbConfig) (e : Ext)
    (hcp : c.check_path = none)
    (hpre : (c.action &&& (DO_DIFF ||| DO_COMPARE) ≠ 0 ∧ c.database_in_url = none) ∨
      (c.action &&& DO_INIT ≠ 0 ∧ c.database_out_url = none) ∨
      (c.action &&& DO_DIFF ≠ 0 ∧
        (c.database_in_url = none ∨ c.database_new_url = none))) :
    mainAfterConfig c e = ([], INVALID_ARGUMENT_ERROR) := by
  simp only [mainAfterConfig, hcp]
  by_cases h1 : c.action &&& (DO_DIFF ||| DO_COMPARE) ≠ 0 ∧ c.database_in_url = none
  · rw [if_pos h1]
  · rw [if_neg h1]
    by_cases h2 : c.action &&& DO_INIT ≠ 0 ∧ c.database_out_url = none
    · rw [if_pos h2]
    · rw [if_neg h2]
      by_cases h3 : cmpurl_ok c.database_in_url c.database_out_url = true ∧
          c.action &&& DO_INIT ≠ 0 ∧ c.action &&& DO_COMPARE ≠ 0
      · rw [if_pos h3]
      · rw [if_neg h3]
        by_cases h4 : cmpurl_ok c.database_in_url c.database_out_url = true ∧
            c.action &&& DO_DIFF ≠ 0
        · rw [if_pos h4]
        · rw [if_neg h4]
          by_cases h5 : c.action &&& DO_DIFF ≠ 0 ∧
              (c.database_new_url = none ∨ c.database_in_url = none)
          · rw [if_pos h5]
          · exfalso
            rcases hpre with ⟨hd, hin⟩ | hd2 | ⟨hd, hio⟩
            · exact h1 ⟨hd, hin⟩
            · exact h2 hd2
            · rcases hio with hin | hnew
              · exact h1 ⟨and_mask_mono (by decide) hd, hin⟩
              · exact h5 ⟨hd, Or.inl hnew⟩

/-- Witness for C1: a COMPARE run with no input database exits with
`INVALID_ARGUMENT_ERROR` and performs no I/O. -/
theorem precondition_violations_exit_before_io_witness :
    mainAfterConfig compare_no_db_config ext_all_ok = ([], INVALID_ARGUMENT_ERROR) :=
  precondition_violations_exit_before_io compare_no_db_config ext_all_ok rfl
    (Or.inl ⟨by decide, rfl⟩)

/-- A DIFF run whose two input databases (baseline-in and comparison-new)
resolve to the identical location, while the output database is unset. -/
def diff_same_inputs_config : DbConfig :=
  { action := DO_DIFF, check_path := none,
    database_in_url := some "file:/var/lib/aide/aide.db",
    database_out_url := none,
    database_new_url := some "file:/var/lib/aide/aide.db",
    db_out_attrs := 0, root_prefix_length := 0 }

/-- C2: the code does not implement the claim's DIFF half.  The check at
`aide.c` line 635 compares `database_in` with `database_out`, although
its `DO_DIFF` error message speaks of "both input databases"; the two
databases a DIFF actually reads are `database_in` and `database_new`.  A
DIFF run whose two input databases resolve to the identical location is
therefore not rejected: it opens both databases (filesystem access) and
exits with the report code, not with the configuration error. -/
theorem diff_identical_inputs_not_rejected :
    mainAfterConfig diff_same_inputs_config ext_all_ok =
      ([Effect.initReports, Effect.openRead .dbIn, Effect.openRead .dbNew,
        Effect.walk false, Effect.closeDb, Effect.genReport], RETOK) ∧
    (mainAfterConfig diff_same_inputs_config ext_all_ok).2 ≠ INVALID_ARGUMENT_ERROR ∧
    Effect.openRead DbKind.dbIn ∈ (mainAfterConfig diff_same_inputs_config ext_all_ok).1 :=
  ⟨by decide, by decide, by decide⟩

/-- A dry-init run (action `DO_INIT|DO_DRY_RUN`) with an output database
configured. -/
def dry_init_config : DbConfig :=
  { action := DO_INIT ||| DO_DRY_RUN, check_path := none, database_in_url := none,
    database_out_url := some "file:/var/lib/aide/aide.db.new", database_new_url := none,
    db_out_attrs := 0, root_prefix_length := 0 }

/-- C3: a dry-init run (action `DO_INIT|DO_DRY_RUN` passing the sanity
checks) initialises the disk walker, populates the rule/state tree in
dry-run mode and exits with status 0; its I/O trace contains no database
open, write or report effect. -/
theorem dry_init_probes_only (c : DbConfig) (e : Ext) (u : String)
    (hcp : c.check_path = none)
    (ha : c.action = DO_INIT ||| DO_DRY_RUN)
    (hout : c.database_out_url = some u)
    (hd : e.diskInitOk = true) :
    mainAfterConfig c e = ([Effect.diskInit, Effect.walk true], 0) := by
  simp +decide [mainAfterConfig, mainRunPhase, hcp, ha, hout, hd]

/-- Witness for C3 at a concrete dry-init configuration. -/
theorem dry_init_probes_only_witness :
    mainAfterConfig dry_init_config ext_all_ok = ([Effect.diskInit, Effect.walk true], 0) :=
  dry_init_probes_only dry_init_config ext_all_ok "file:/var/lib/aide/aide.db.new"
    rfl rfl rfl rfl

/-- C4: a SIGBUS during a mapped read is recovered exactly once per
arming of the process-wide `catch_mmap` flag: with the flag set the
handler clears it and the run continues; with the flag clear the handler
terminates the process with the failure status.  In particular a single
arming survives one fault and dies at the second, and the flag starts
out clear. -/
theorem sigbus_one_shot_recovery :
    sigbus_handler 1 = SigResult.continues 0 ∧
    sigbus_handler 0 = SigResult.exits EXIT_FAILURE ∧
    runFaults 1 1 = none ∧
    runFaults 1 2 = some EXIT_FAILURE ∧
    runFaults 0 1 = some EXIT_FAILURE ∧
    initial_catch_mmap = 0 ∧
    EXIT_FAILURE ≠ 0 := by decide

/-- C5: the groups predefined before the configuration is read resolve to
the documented attribute sets: "R" is the union of perm, ftype, inode,
linkcount, uid, gid, size, linkname, mtime, ctime, the md5 content hash
when hashing is compiled in and usable, and the platform extras "X"; "L"
is the link-only set; ">" the growth-only set with `sizeg`; "H" the mask
of all available hashes; "X" the platform extras; "E" empty. -/
theorem predefined_groups_resolved (p : Platform) :
    get_groupval (default_group_syms p) "R" =
      some (ATTR .attr_perm ||| ATTR .attr_ftype ||| ATTR .attr_inode |||
        ATTR .attr_linkcount ||| ATTR .attr_uid ||| ATTR .attr_gid |||
        ATTR .attr_size ||| ATTR .attr_linkname ||| ATTR .attr_mtime |||
        ATTR .attr_ctime ||| (if md5_available p then ATTR .attr_md5 else 0) |||
        groupX p) ∧
    get_groupval (default_group_syms p) "L" =
      some (common_attrs ||| ATTR .attr_linkname ||| groupX p) ∧
    get_groupval (default_group_syms p) ">" =
      some (common_attrs ||| ATTR .attr_sizeg ||| ATTR .attr_linkname ||| groupX p) ∧
    get_groupval (default_group_syms p) "H" = some p.available_hashes ∧
    get_groupval (default_group_syms p) "X" = some (groupX p) ∧
    get_groupval (default_group_syms p) "E" = some 0 := by
  refine ⟨?_, rfl, rfl, rfl, rfl, rfl⟩
  have e1 : get_groupval (default_group_syms p) "R" =
      some (common_attrs ||| ATTR .attr_size ||| ATTR .attr_linkname |||
        ATTR .attr_mtime ||| ATTR .attr_ctime ||| GROUP_R_HASHES p ||| groupX p) := rfl
  rw [e1, GROUP_R_HASHES_eq]
  rfl

/-- C6 counterexample: the command line `-h -i -C` specifies two primary
commands (init and check), yet argument parsing exits with status 0 at
`--help` instead of rejecting it with the invalid-argument error. -/
theorem two_commands_after_help_exit_zero :
    countCmd [Opt.help, Opt.init, Opt.check] = 2 ∧
    read_param [Opt.help, Opt.init, Opt.check] = Except.error 0 ∧
    (0 : Nat) ≠ INVALID_ARGUMENT_ERROR :=
  ⟨by decide, rfl, by decide⟩

/-- C6 (amended): for every command line specifying more than one primary
command and containing no `--help`/`--version` option (those exit with
status 0 as soon as they are dispatched), argument parsing rejects it
with the invalid-argument error: the action field is set at most once and
a second assignment terminates the process. -/
theorem multiple_commands_rejected (opts : List Opt)
    (hnohv : ∀ o ∈ opts, isHelpOrVersion o = false)
    (hc : 2 ≤ countCmd opts) :
    read_param opts = Except.error INVALID_ARGUMENT_ERROR :=
  read_param_loop_two_commands opts 0 hnohv (Or.inr hc)

/-- Witness for the amended C6 at the command line `-i -C`. -/
theorem multiple_commands_rejected_witness :
    read_param [Opt.init, Opt.check] = Except.error INVALID_ARGUMENT_ERROR :=
  multiple_commands_rejected [Opt.init, Opt.check] (by decide) (by decide)

/-- An INIT run with an output database configured. -/
def init_only_config : DbConfig :=
  { action := DO_INIT, check_path := none, database_in_url := none,
    database_out_url := some "file:/var/lib/aide/aide.db.new", database_new_url := none,
    db_out_attrs := 0, root_prefix_length := 0 }

/-- External oracle in which opening any database fails. -/
def ext_db_open_fails : Ext := { ext_all_ok with dbInitOk := fun _ => false }

/-- External oracle in which writing the database spec header fails. -/
def ext_writespec_fails : Ext := { ext_all_ok with writeSpecOk := false }

/-- C7: the exit codes are fixed, pairwise distinct constants: a too-old
crypto library terminates with the dedicated version-mismatch code,
database open and database write failures terminate with the I/O-error
code, and configuration failures with the configuration-error codes. -/
theorem exit_codes_fixed_and_distinct :
    List.Pairwise (· ≠ ·)
      [RETOK, INVALID_ARGUMENT_ERROR, INVALID_CONFIGURELINE_ERROR, IO_ERROR,
        VERSION_MISMATCH_ERROR] ∧
    init_crypto_lib true false = some VERSION_MISMATCH_ERROR ∧
    init_crypto_lib true true = none ∧
    (mainAfterConfig init_only_config ext_db_open_fails).2 = IO_ERROR ∧
    (mainAfterConfig init_only_config ext_writespec_fails).2 = IO_ERROR ∧
    parse_config_gate false = some INVALID_CONFIGURELINE_ERROR := by decide

/-- A configuration state in which no primary command was given. -/
def no_command_config : DbConfig :=
  { action := 0, check_path := none, database_in_url := none, database_out_url := none,
    database_new_url := none, db_out_attrs := 0, root_prefix_length := 0 }

/-- C8: when no primary command was given on the command line or in the
configuration, `setdefaults_after_config` defaults the action to
`DO_COMPARE` (database check). -/
theorem default_action_is_compare (default_db default_db_out : Option String)
    (c : DbConfig) (h : c.action = 0) :
    (setdefaults_after_config default_db default_db_out c).action = DO_COMPARE := by
  simp [setdefaults_after_config, h]

/-- Witness for C8 at a configuration with no command. -/
theorem default_action_is_compare_witness :
    (setdefaults_after_config none none no_command_config).action = DO_COMPARE :=
  default_action_is_compare none none no_command_config rfl

/-- C9: every database write (the spec header written by `db_writespec`
and the tree written by `write_tree`) whose attribute mask contains the
growth-size attribute `sizeg` also contains the plain `size` attribute:
the fix-up at `aide.c` lines 654-657 runs before any database is
written. -/
theorem stored_sizeg_implies_size (c : DbConfig) (e : Ext) (a : Nat)
    (ha : Effect.writeSpec a ∈ (mainAfterConfig c e).1 ∨
      Effect.writeTree a ∈ (mainAfterConfig c e).1)
    (hg : a &&& ATTR .attr_sizeg ≠ 0) :
    a &&& ATTR .attr_size ≠ 0 := by
  have hv := stored_mainAfterConfig c e a ha
  rw [hv] at hg ⊢
  exact db_out_attrs_fixup_sizeg c.db_out_attrs hg

/-- An INIT run whose configured output attributes are exactly `sizeg`. -/
def init_sizeg_config : DbConfig :=
  { action := DO_INIT, check_path := none, database_in_url := none,
    database_out_url := some "file:/var/lib/aide/aide.db.new", database_new_url := none,
    db_out_attrs := ATTR .attr_sizeg, root_prefix_length := 0 }

/-- Witness for C9: an INIT run configured to store only `sizeg` writes a
spec header whose mask contains both `sizeg` and `size`. -/
theorem stored_sizeg_implies_size_witness :
    (Effect.writeSpec (ATTR .attr_sizeg ||| ATTR .attr_size) ∈
      (mainAfterConfig init_sizeg_config ext_all_ok).1) ∧
    (ATTR .attr_sizeg ||| ATTR .attr_size) &&& ATTR .attr_size ≠ 0 := by
  have hm : Effect.writeSpec (ATTR .attr_sizeg ||| ATTR .attr_size) ∈
      (mainAfterConfig init_sizeg_config ext_all_ok).1 := by decide
  exact ⟨hm, stored_sizeg_implies_size init_sizeg_config ext_all_ok _
    (Or.inl hm) (by decide)⟩

/-- C10: a `--path-check` run performs no scan or database I/O (its
effect trace is empty) and exits with status 2 when `check_rxtree`
reports the path outside the configured limit (negative result), status
0 when the path and file type match the rule tree (positive result), and
status 1 when they do not match (zero result). -/
theorem path_check_exit_status (c : DbConfig) (e : Ext) (p : String)
    (hcp : c.check_path = some p) :
    (mainAfterConfig c e).1 = [] ∧
    (e.check_rxtree < 0 → (mainAfterConfig c e).2 = 2) ∧
    (0 < e.check_rxtree → (mainAfterConfig c e).2 = 0) ∧
    (e.check_rxtree = 0 → (mainAfterConfig c e).2 = 1) := by
  simp only [mainAfterConfig, hcp]
  refine ⟨?_, ?_, ?_, ?_⟩
  · split
    · rfl
    · split
      · rfl
      · rfl
  · intro h
    rw [if_pos h]
  · intro h
    rw [if_neg (show ¬ e.check_rxtree < 0 by omega),
      if_pos (show e.check_rxtree ≠ 0 by omega)]
  · intro h
    rw [if_neg (show ¬ e.check_rxtree < 0 by omega), if_neg (not_not_intro h)]

/-- A `--path-check` run for a regular file at `/etc/passwd`. -/
def path_check_config : DbConfig :=
  { action := DO_DRY_RUN, check_path := some "/etc/passwd", database_in_url := none,
    database_out_url := none, database_new_url := none, db_out_attrs := 0,
    root_prefix_length := 0 }

/-- External oracle in which `check_rxtree` reports a rule match. -/
def ext_rule_match : Ext := { ext_all_ok with check_rxtree := 1 }

/-- Witness for C10: a matching path-check run does no I/O and exits 0. -/
theorem path_check_exit_status_witness :
    (mainAfterConfig path_check_config ext_rule_match).1 = [] ∧
    (mainAfterConfig path_check_config ext_rule_match).2 = 0 := by
  have h := path_check_exit_status path_check_config ext_rule_match "/etc/passwd" rfl
  exact ⟨h.1, h.2.2.1 (by decide)⟩

end Aide
